import Mathlib

/-
Shallow embedding of src/act/plotting/plot.py (class TimeSeriesDisplay).

Modelling conventions:
* Timestamps are whole minutes since the Unix epoch, as Int, standing in for
  numpy datetime64 values; numeric data values (latitudes, y samples) are Int.
* Python exceptions keep the state mutated so far: every method returns a
  Res value that carries the session state both on success and on error.
* External collaborators: matplotlib calls become explicit state updates on
  the Axis/Axes records; the astral ephemeris is a function parameter; the
  repository helpers that are not under src/ (act.utils.datetime_utils,
  act.plotting.common, act.utils.data_utils) are modelled from the spec and
  carry a doc comment saying so.
-/

namespace ACT

/-- Timestamps: minutes since the epoch, playing the role of numpy datetime64. -/
abbrev Time := Int

/-- Conversion of a timestamp to datetime64 day precision (dtype datetime64 at D).
Numpy unit coarsening floors toward minus infinity; Lean's division on Int is
Euclidean division, which for the positive divisor 1440 is exactly that floor. -/
def toDay (t : Time) : Int := t / 1440

/-- A Python value that may be the None object; used for the datastream label. -/
inductive PyVal
  | pynone
  | pystr (s : String)
deriving DecidableEq, Repr

/-- Python identity test against None. -/
def PyVal.isNone : PyVal → Bool
  | .pynone => true
  | .pystr _ => false

/-- Python str(): str(None) is the four-letter string "None"; the result is always
a string object, never the None object. -/
def pyStr : PyVal → PyVal
  | .pynone => .pystr "None"
  | .pystr s => .pystr s

/-- Lines 86-88 of plot.py: the primary datastream label is wrapped in str, and the
fallback assignment runs only when the wrapped value is the None object. The Bool
component records whether the fallback branch executed. -/
def resolveDatastream (primary altPath : PyVal) : PyVal × Bool :=
  let ds := pyStr primary
  if ds.isNone then (pyStr altPath, true) else (ds, false)

/-- One dataset variable: its dimension names, its units attribute, its values. -/
structure Var where
  dims : List String
  units : String
  vals : List Int
deriving DecidableEq, Repr

/-- The ARM dataset as the display reads it: named variables (fields and
coordinates), the datastream label and the alternate lookup path of line 88,
the covered calendar dates, the time coordinate, latitude and longitude. -/
structure Dataset where
  vars : List (String × Var)
  datastream : PyVal
  datastreamAlt : PyVal
  file_dates : List Int
  timeVals : List Time
  latVals : List Int
  lonVals : List Int
deriving DecidableEq, Repr

/-- Field or coordinate lookup, self._arm applied to a name. -/
def lookupVar (d : Dataset) (name : String) : Option Var :=
  (d.vars.find? (fun p => p.1 == name)).map (fun p => p.2)

/-- Sunrise, sunset and solar noon returned by the ephemeris call (astral sun_utc). -/
structure SunTimes where
  sunrise : Time
  sunset : Time
  noon : Time
deriving DecidableEq, Repr

/-- The external ephemeris calculator: date, latitude, longitude to sun times. -/
abbrev EphFn := Int → Int → Int → SunTimes

/-- A date tick formatter, remembering the day count it was keyed on. -/
structure DateFormat where
  dayCount : Int
deriving DecidableEq, Repr

/-- Modelled from the spec: act.plotting.common.get_date_format (not under src/)
chooses a date tick-format granularity keyed on the elapsed day count; the model
records the day count the choice was keyed on. -/
def get_date_format (days : Int) : DateFormat := ⟨days⟩

/-- The state of one matplotlib axis that the display touches: axis limits,
background color, shaded spans and vertical lines, titles, tick formatter, and
counts of marker plots and meshes drawn on it. -/
structure Axis where
  xlim : Option (Time × Time) := none
  ylim : Option (Int × Int) := none
  facecolor : String := "white"
  spans : List (Time × Time) := []
  vlines : List Time := []
  title : String := ""
  ylabel : String := ""
  fmt : Option DateFormat := none
  nmarkers : Nat := 0
  nmeshes : Nat := 0
deriving DecidableEq, Repr

/-- A freshly created axis. -/
def Axis.fresh : Axis := {}

/-- A numpy value that is either a bare object (what plt.subplots gives for a
one-by-one grid), a 1-D array, or a 2-D array. Instantiated at Axis for
self.axes and at pairs for the range stores. -/
inductive Grid (α : Type)
  | scalar (a : α)
  | one (l : List α)
  | two (m : List (List α))
deriving DecidableEq, Repr

/-- A subplot index: a 1-tuple or a 2-tuple of integers. -/
inductive Idx
  | i1 (i : Nat)
  | i2 (i j : Nat)
deriving DecidableEq, Repr

/-- Subscripting a grid with a subplot index. Mismatched dimensionality (a 1-tuple
into a 2-D grid, any tuple into a bare object) does not yield an element; the
sessions this class builds always index the grid with its own dimensionality, and
the mismatched cases are surfaced as lookup failures. -/
def Grid.get? {α : Type} : Grid α → Idx → Option α
  | .one l, .i1 i => l.get? i
  | .two m, .i2 i j => (m.get? i).bind (fun row => row.get? j)
  | _, _ => none

/-- In-place mutation of the element at an index (Python aliasing made explicit). -/
def Grid.set {α : Type} : Grid α → Idx → α → Grid α
  | .one l, .i1 i, a => .one (l.set i a)
  | .two m, .i2 i j, a => .two (m.set i ((((m.get? i).getD [])).set j a))
  | g, _, _ => g

/-- The value of self.axes. -/
abbrev Axes := Grid Axis

/-- A lazily allocated per-subplot range store (self.xrng or self.yrng):
a rows-by-2 or rows-by-cols-by-2 numpy array, kept as pairs. -/
abbrev RngStore := Grid (Int × Int)

/-- np.zeros of shape (n, 2): the zero-sentinel store for a 1-D grid. -/
def RngStore.zeros1 (n : Nat) : RngStore := .one (List.replicate n (0, 0))

/-- np.zeros of shape (r, c, 2): the zero-sentinel store for a 2-D grid. -/
def RngStore.zeros2 (r c : Nat) : RngStore :=
  .two (List.replicate r (List.replicate c (0, 0)))

/-- The Python exceptions the methods can raise. -/
inductive Err
  | runtime (msg : String)
  | value (msg : String)
  | keyErr
  | indexErr
  | attrErr
  | typeErr
deriving DecidableEq, Repr

/-- The session state: the fields of a TimeSeriesDisplay instance. Attributes
that Python creates lazily (time_rng, xrng, yrng) are Options, none meaning the
attribute does not exist yet. -/
structure TimeSeriesDisplay where
  arm : Dataset
  fields : List (String × Var)
  ds : PyVal
  file_dates : List Int
  fig : Option Nat
  axes : Option Axes
  plot_vars : List String
  cbs : List Nat
  time_rng : Option (Time × Time)
  xrng : Option RngStore
  yrng : Option RngStore
deriving DecidableEq, Repr

/-- The outcome of a method call: Python exceptions keep the state mutated so
far, so both constructors carry the session state. -/
inductive Res (α : Type)
  | ok (a : α) (s : TimeSeriesDisplay)
  | err (e : Err) (s : TimeSeriesDisplay)
deriving DecidableEq, Repr

/-- The session state after a call, whether it succeeded or raised. -/
def Res.stateOf {α : Type} : Res α → TimeSeriesDisplay
  | .ok _ s => s
  | .err _ s => s

/-- Whether a call returned without raising. -/
def Res.isOk {α : Type} : Res α → Bool
  | .ok _ _ => true
  | .err _ _ => false

/-- Whether a call raised a ValueError. -/
def Res.isValueErr {α : Type} : Res α → Bool
  | .err (.value _) _ => true
  | _ => false

/-- Lines 83-95: the constructor, without a subplot shape (a shape, when given,
is applied by a separate add_subplots call, lines 94-95). -/
def TimeSeriesDisplay.init (arm : Dataset) : TimeSeriesDisplay :=
  { arm := arm
    fields := arm.vars
    ds := (resolveDatastream arm.datastream arm.datastreamAlt).1
    file_dates := arm.file_dates
    fig := none
    axes := none
    plot_vars := []
    cbs := []
    time_rng := none
    xrng := none
    yrng := none }

/-- Modelled from the spec: act.utils.datetime_utils.numpy_to_arm_date (not under
src/) converts a time sample to its calendar-date label; the model uses the day
number as the label. -/
def numpy_to_arm_date (t : Time) : Int := toDay t

/-- Modelled from the spec: act.utils.datetime_utils.dates_between (not under
src/) enumerates every calendar day in the inclusive span from d0 to d1. -/
def dates_between (d0 d1 : Int) : List Int :=
  (List.range (d1 + 1 - d0).toNat).map (fun k : Nat => d0 + (k : Int))

/-- Lines 142-148: the date span day_night_background shades; when the dataset
records no file dates, the first and last time samples supply the span, and an
empty time coordinate makes that lookup raise. -/
def fileDatesFor (d : Dataset) : Option (List Int) :=
  if d.file_dates.isEmpty then
    match d.timeVals.head?, d.timeVals.getLast? with
    | some t0, some t1 => some [numpy_to_arm_date t0, numpy_to_arm_date t1]
    | _, _ => none
  else some d.file_dates

/-- Lines 168-174: the per-day loop of day_night_background; each day gets one
sunrise-to-sunset span and one solar-noon vertical line. -/
def shadeDays (eph : EphFn) (lat lon : Int) (days : List Int) (a : Axis) : Axis :=
  days.foldl (fun ax f =>
    { ax with spans := ax.spans ++ [((eph f lat lon).sunrise, (eph f lat lon).sunset)],
              vlines := ax.vlines ++ [(eph f lat lon).noon] }) a

/-- Lines 131-174: day_night_background. The date span is resolved before the
axes guard, matching the source order; the background is grayed and then every
day in the span is shaded. An empty latitude or longitude array makes the
float coercion of line 165 raise, after the background was already grayed. -/
def TimeSeriesDisplay.day_night_background (eph : EphFn) (st : TimeSeriesDisplay)
    (idx : Idx) : Res Unit :=
  match fileDatesFor st.arm with
  | none => .err .indexErr st
  | some fd =>
    match st.axes with
    | none => .err (.runtime "day_night_background requires the plot to be displayed.") st
    | some axs =>
      match Grid.get? axs idx with
      | none => .err .indexErr st
      | some a =>
        match st.arm.latVals.head?, st.arm.lonVals.head? with
        | some lat, some lon =>
          .ok () { st with axes := some (Grid.set axs idx
            (shadeDays eph lat lon (dates_between (fd.headD 0) (fd.getLastD 0))
              { a with facecolor := "0.85" })) }
        | _, _ =>
          .err .typeErr { st with axes := some (Grid.set axs idx { a with facecolor := "0.85" }) }

/-- Lines 176-197: set_xrng. After the axes guard the store is allocated on
first use, sized to the grid (a bare Axes object has no shape attribute and
raises); the raw range goes to the axis limits and the day-truncated range to
the store. -/
def TimeSeriesDisplay.set_xrng (st : TimeSeriesDisplay) (xr : Time × Time)
    (idx : Idx) : Res Unit :=
  match st.axes with
  | none => .err (.runtime "set_xrng requires the plot to be displayed.") st
  | some axs =>
    match (match st.xrng, axs with
           | some xs, _ => some xs
           | none, .one l => some (RngStore.zeros1 l.length)
           | none, .two m => some (RngStore.zeros2 m.length (m.headD []).length)
           | none, .scalar _ => none) with
    | none => .err .attrErr st
    | some xs =>
      match Grid.get? axs idx with
      | none => .err .indexErr { st with xrng := some xs }
      | some a =>
        match Grid.get? xs idx with
        | none => .err .indexErr
            { st with xrng := some xs,
                      axes := some (Grid.set axs idx { a with xlim := some xr }) }
        | some _ =>
          .ok () { st with axes := some (Grid.set axs idx { a with xlim := some xr }),
                           xrng := some (Grid.set xs idx (toDay xr.1, toDay xr.2)) }

/-- Lines 199-220: set_yrng, the numeric counterpart of set_xrng; the stored
range is not truncated. -/
def TimeSeriesDisplay.set_yrng (st : TimeSeriesDisplay) (yr : Int × Int)
    (idx : Idx) : Res Unit :=
  match st.axes with
  | none => .err (.runtime "set_yrng requires the plot to be displayed.") st
  | some axs =>
    match (match st.yrng, axs with
           | some ys, _ => some ys
           | none, .one l => some (RngStore.zeros1 l.length)
           | none, .two m => some (RngStore.zeros2 m.length (m.headD []).length)
           | none, .scalar _ => none) with
    | none => .err .attrErr st
    | some ys =>
      match Grid.get? axs idx with
      | none => .err .indexErr { st with yrng := some ys }
      | some a =>
        match Grid.get? ys idx with
        | none => .err .indexErr
            { st with yrng := some ys,
                      axes := some (Grid.set axs idx { a with ylim := some yr }) }
        | some _ =>
          .ok () { st with axes := some (Grid.set axs idx { a with ylim := some yr }),
                           yrng := some (Grid.set ys idx yr) }

/-- Lines 222-255: add_colorbar. After the axes guard the target axis is read,
the colorbar is built on an auxiliary axis of the figure (a missing figure makes
the add_axes call raise), and the handle is appended to the session list and
returned. -/
def TimeSeriesDisplay.add_colorbar (st : TimeSeriesDisplay) (mappable : Nat)
    (title : Option String) (idx : Idx) : Res Nat :=
  match st.axes with
  | none => .err (.runtime "add_colorbar requires the plot to be displayed.") st
  | some axs =>
    match Grid.get? axs idx with
    | none => .err .indexErr st
    | some _ =>
      match st.fig with
      | none => .err .attrErr st
      | some _ =>
        .ok st.cbs.length { st with cbs := st.cbs ++ [st.cbs.length] }

/-- plt.subplots with its default squeeze behavior: one bare axis when both
counts are 1, a 1-D array when exactly one count is 1, a 2-D array otherwise. -/
def pltSubplots (r c : Nat) : Axes :=
  if r = 1 ∧ c = 1 then .scalar Axis.fresh
  else if r = 1 then .one (List.replicate c Axis.fresh)
  else if c = 1 then .one (List.replicate r Axis.fresh)
  else .two (List.replicate r (List.replicate c Axis.fresh))

/-- Lines 97-129: add_subplots. Any held figure is deleted first (attribute
removal, modelled as clearing the handle); a 2-element shape builds an (r, c)
grid, a 1-element shape builds an (n, 1) grid whose single axis is rewrapped
into a 1-D array when n is 1, and any other length raises before a figure or
axes are installed. -/
def TimeSeriesDisplay.add_subplots (st : TimeSeriesDisplay) (shape : List Nat) :
    Res Unit :=
  let st0 := if st.fig = none then st else { st with fig := none }
  if shape.length = 2 then
    .ok () { st0 with fig := some 0,
                      axes := some (pltSubplots (shape.headD 0) (shape.getD 1 0)) }
  else if shape.length = 1 then
    match pltSubplots (shape.headD 0) 1 with
    | .scalar a => .ok () { st0 with fig := some 0, axes := some (.one [a]) }
    | .one l => .ok () { st0 with fig := some 0, axes := some (.one l) }
    | .two m => .ok () { st0 with fig := some 0, axes := some (.two m) }
  else
    .err (.value "subplot_shape must be a 1 or 2 dimensional tuplelist, or array!") st0

/-- The data plot resolves before drawing (lines 288-298): the field, its first
dimension as x coordinate, an optional second dimension as y coordinate, and the
unit titles (for a 2-D field the colorbar inherits the field units and the y
label carries the second coordinate's units). -/
structure PlotData where
  data : Var
  xvar : Var
  ydata : Option Var
  units : String
  ytitle : String
deriving DecidableEq, Repr

/-- Lines 288-298 of plot: field and coordinate lookup and unit titles. -/
def plotLookup (d : Dataset) (field : String) : Except Err PlotData :=
  match lookupVar d field with
  | none => .error .keyErr
  | some data =>
    match data.dims with
    | [] => .error .indexErr
    | xdim :: rest =>
      match lookupVar d xdim with
      | none => .error .keyErr
      | some xvar =>
        match rest with
        | [] => .ok { data := data, xvar := xvar, ydata := none,
                      units := "(" ++ data.units ++ ")",
                      ytitle := "(" ++ data.units ++ ")" }
        | ydim :: _ =>
          match lookupVar d ydim with
          | none => .error .keyErr
          | some yv => .ok { data := data, xvar := xvar, ydata := some yv,
                             units := "(" ++ data.units ++ ")",
                             ytitle := "(" ++ yv.units ++ ")" }

/-- Lines 301-306 of plot: a missing figure and a missing axes grid are created
lazily, the axes as a 1-D singleton array. -/
def lazyInit (st : TimeSeriesDisplay) : TimeSeriesDisplay :=
  let st1 := if st.fig = none then { st with fig := some 1 } else st
  if st1.axes = none then { st1 with axes := some (.one [Axis.fresh]) } else st1

/-- Lines 310-319 of plot: a 1-D field gets the day/night background and one
marker series; a 2-D field gets one pseudocolor mesh (after optional gap
filling), whose handle is returned for the colorbar step. -/
def plotDraw (eph : EphFn) (ani : List Time × List Int → List Time × List Int)
    (pd : PlotData) (add_nan : Bool) (idx : Idx) (st : TimeSeriesDisplay) :
    Res (Option Nat) :=
  match pd.ydata with
  | none =>
    match TimeSeriesDisplay.day_night_background eph st idx with
    | .err e s => .err e s
    | .ok _ s =>
      match s.axes with
      | none => .err .attrErr s
      | some axs =>
        match Grid.get? axs idx with
        | none => .err .indexErr s
        | some a =>
          .ok none { s with axes := some (Grid.set axs idx
            { a with nmarkers := a.nmarkers + 1 }) }
  | some _ =>
    match st.axes with
    | none => .err .attrErr st
    | some axs =>
      match Grid.get? axs idx with
      | none => .err .indexErr st
      | some a =>
        .ok (some (if add_nan then (ani (pd.xvar.vals, pd.data.vals)).1.length else 0))
          { st with axes := some (Grid.set axs idx { a with nmeshes := a.nmeshes + 1 }) }

/-- Lines 321-329 of plot: the title (synthesized as datastream, field, date of
the first time sample when no override is given) and the y label. -/
def plotTitle (pd : PlotData) (field : String) (set_title : Option String)
    (st : TimeSeriesDisplay) (idx : Idx) : Res Unit :=
  match (match set_title with
         | some t => Except.ok t
         | none =>
           match st.arm.timeVals.head? with
           | none => Except.error Err.indexErr
           | some t0 =>
             match st.ds with
             | .pynone => Except.error Err.typeErr
             | .pystr s =>
               Except.ok (s ++ " " ++ field ++ " on " ++ toString (numpy_to_arm_date t0))) with
  | .error e => .err e st
  | .ok t =>
    match st.axes with
    | none => .err .attrErr st
    | some axs =>
      match Grid.get? axs idx with
      | none => .err .indexErr st
      | some a =>
        .ok () { st with axes := some (Grid.set axs idx
          { a with title := t, ylabel := pd.ytitle }) }

/-- Minimum of a nonempty value array; a zero-size numpy reduction raises. -/
def listMin : List Int → Option Int
  | [] => none
  | x :: xs => some (xs.foldl min x)

/-- Maximum of a nonempty value array; a zero-size numpy reduction raises. -/
def listMax : List Int → Option Int
  | [] => none
  | x :: xs => some (xs.foldl max x)

/-- Lines 331-335 of plot: the session time range is computed once, from the
full time extent of the field being plotted, and then applied through set_xrng
on every call. -/
def plotXrange (pd : PlotData) (st : TimeSeriesDisplay) (idx : Idx) : Res Unit :=
  match (match st.time_rng with
         | some tr => Except.ok (tr, st)
         | none =>
           match listMin pd.xvar.vals, listMax pd.xvar.vals with
           | some mn, some mx =>
             Except.ok ((mn, mx), { st with time_rng := some (mn, mx) })
           | _, _ => Except.error (Err.value "zero-size array reduction")) with
  | .error e => .err e st
  | .ok trs => TimeSeriesDisplay.set_xrng trs.2 trs.1 idx

/-- Numpy truthiness of a boolean array: defined only for a single element; any
other size raises the ambiguous-truth-value ValueError. -/
def npTruth : List Bool → Option Bool
  | [b] => some b
  | _ => none

/-- Lines 337-344 of plot: when the yrng attribute exists, the stored cell is
compared elementwise against np.zeros(2) and the Python not is applied to the
resulting two-element boolean array; a non-default cell would be reapplied and a
default cell replaced by the y coordinate's own extent. -/
def plotYlim (pd : PlotData) (st : TimeSeriesDisplay) (idx : Idx) : Res Unit :=
  match st.yrng with
  | none => .ok () st
  | some ys =>
    match Grid.get? ys idx with
    | none => .err .indexErr st
    | some cell =>
      match npTruth [decide (cell.1 = 0), decide (cell.2 = 0)] with
      | none => .err (.value "the truth value of an array with more than one element is ambiguous") st
      | some b =>
        if !b then TimeSeriesDisplay.set_yrng st cell idx
        else
          match pd.ydata with
          | none => .err .attrErr st
          | some yv =>
            match listMin yv.vals, listMax yv.vals with
            | some mn, some mx => TimeSeriesDisplay.set_yrng st (mn, mx) idx
            | _, _ => .err (.value "zero-size array reduction") st

/-- Lines 346-354 of plot: the tick-format day count is the difference of the
day-truncated stored x bounds of the target cell, and the chosen formatter is
installed on the axis. -/
def plotFmt (st : TimeSeriesDisplay) (idx : Idx) : Res Unit :=
  match st.xrng with
  | none => .err .attrErr st
  | some xs =>
    match Grid.get? xs idx with
    | none => .err .indexErr st
    | some c =>
      match st.axes with
      | none => .err .attrErr st
      | some axs =>
        match Grid.get? axs idx with
        | none => .err .indexErr st
        | some a =>
          .ok () { st with axes := some (Grid.set axs idx
            { a with fmt := some (get_date_format (c.2 - c.1)) }) }

/-- Lines 356-357 of plot: a 2-D plot attaches a colorbar carrying the field's
units title. -/
def plotCbar (pd : PlotData) (mesh : Option Nat) (st : TimeSeriesDisplay)
    (idx : Idx) : Res Unit :=
  match pd.ydata with
  | none => .ok () st
  | some _ =>
    match mesh with
    | none => .err .attrErr st
    | some mid =>
      match TimeSeriesDisplay.add_colorbar st mid (some pd.units) idx with
      | .err e s => .err e s
      | .ok _ s => .ok () s

/-- Lines 257-357: plot. Data lookup, lazy figure/axes creation, the target axis
fetch, drawing, title, the session-wide x range, the y range block, tick
formatting, and the 2-D colorbar, in source order. Cosmetic arguments (line
color, colormap, colorbar bounds) do not change the tracked state and are
omitted. -/
def TimeSeriesDisplay.plot (eph : EphFn)
    (ani : List Time × List Int → List Time × List Int)
    (st : TimeSeriesDisplay) (field : String) (idx : Idx)
    (set_title : Option String) (add_nan : Bool) : Res Unit :=
  match plotLookup st.arm field with
  | .error e => .err e st
  | .ok pd =>
    match (lazyInit st).axes with
    | none => .err .attrErr (lazyInit st)
    | some axs =>
      match Grid.get? axs idx with
      | none => .err .indexErr (lazyInit st)
      | some _ =>
        match plotDraw eph ani pd add_nan idx (lazyInit st) with
        | .err e s => .err e s
        | .ok mesh s3 =>
          match plotTitle pd field set_title s3 idx with
          | .err e s => .err e s
          | .ok _ s4 =>
            match plotXrange pd s4 idx with
            | .err e s => .err e s
            | .ok _ s5 =>
              match plotYlim pd s5 idx with
              | .err e s => .err e s
              | .ok _ s6 =>
                match plotFmt s6 idx with
                | .err e s => .err e s
                | .ok _ s7 => plotCbar pd mesh s7 idx

/-- The x limits of the axis a subplot index designates. -/
def xlimAt (st : TimeSeriesDisplay) (idx : Idx) : Option (Time × Time) :=
  match st.axes with
  | none => none
  | some axs => (Grid.get? axs idx).bind Axis.xlim

/-- The tick formatter of the axis a subplot index designates. -/
def fmtAt (st : TimeSeriesDisplay) (idx : Idx) : Option DateFormat :=
  match st.axes with
  | none => none
  | some axs => (Grid.get? axs idx).bind Axis.fmt

/-- The stored x-range cell of a subplot index. -/
def xcellAt (st : TimeSeriesDisplay) (idx : Idx) : Option (Int × Int) :=
  st.xrng.bind (fun xs => Grid.get? xs idx)

/-- The full time extent of a field: the minimum and maximum of its first
dimension's coordinate values, exactly what lines 332-333 compute. -/
def xextent (d : Dataset) (field : String) : Option (Time × Time) :=
  match plotLookup d field with
  | .error _ => none
  | .ok pd =>
    match listMin pd.xvar.vals, listMax pd.xvar.vals with
    | some mn, some mx => some (mn, mx)
    | _, _ => none

/-! Concrete sample data used by witnesses and counterexamples. -/

/-- A 1-D temperature field over time. -/
def tempVar : Var := ⟨["time"], "C", [5, 7, 6]⟩

/-- The time coordinate: three samples spanning two calendar days. -/
def timeVar : Var := ⟨["time"], "s", [0, 60, 2900]⟩

/-- A 2-D reflectivity field over time and height. -/
def reflVar : Var := ⟨["time", "height"], "dBZ", [1, 2, 3, 4, 5, 6]⟩

/-- The height coordinate. -/
def heightVar : Var := ⟨["height"], "m", [10, 20]⟩

/-- A small concrete dataset. -/
def sampleArm : Dataset :=
  { vars := [("temp", tempVar), ("time", timeVar), ("refl", reflVar), ("height", heightVar)]
    datastream := .pystr "sgpmet"
    datastreamAlt := .pynone
    file_dates := [0]
    timeVals := [0, 60, 2900]
    latVals := [36]
    lonVals := [-97] }

/-- A fixed ephemeris: sunrise 06:00, sunset 18:00, noon 12:00 every day. -/
def eph0 : EphFn := fun _ _ _ => ⟨360, 1080, 720⟩

/-- A gap-filling function that inserts nothing. -/
def idNan : List Time × List Int → List Time × List Int := fun p => p

/-- A fresh session over the sample dataset, no subplot grid yet. -/
def sess0 : TimeSeriesDisplay := TimeSeriesDisplay.init sampleArm

/-- The sample session after building a one-cell subplot grid. -/
def sess1 : TimeSeriesDisplay := (TimeSeriesDisplay.add_subplots sess0 [1]).stateOf

/-- The sample session after explicitly setting a y range on subplot 0. -/
def sess2 : TimeSeriesDisplay :=
  (TimeSeriesDisplay.set_yrng sess1 (0, 5) (Idx.i1 0)).stateOf

/-- The sample session after building a two-cell subplot grid. -/
def sessB : TimeSeriesDisplay := (TimeSeriesDisplay.add_subplots sess0 [2]).stateOf

/-- The two-cell session after plotting the 1-D field on subplot 0. -/
def sessB1 : TimeSeriesDisplay :=
  (TimeSeriesDisplay.plot eph0 idNan sessB "temp" (Idx.i1 0) none false).stateOf

/-- The two-cell session after then plotting the 2-D field on subplot 1. -/
def sessB2 : TimeSeriesDisplay :=
  (TimeSeriesDisplay.plot eph0 idNan sessB1 "refl" (Idx.i1 1) none false).stateOf

/-- The one-cell session after a set_xrng call whose endpoints fall on day 0 and
day 2. -/
def sessX : TimeSeriesDisplay :=
  (TimeSeriesDisplay.set_xrng sess1 (100, 3000) (Idx.i1 0)).stateOf

/-! Basic lemmas about list and grid indexing. -/

theorem list_get?_set_self {α : Type} :
    ∀ (l : List α) (i : Nat) (a b : α), l.get? i = some a → (l.set i b).get? i = some b := by
  intro l
  induction l with
  | nil => intro i a b h; simp [List.get?] at h
  | cons x xs ih =>
    intro i a b h
    cases i with
    | zero => rfl
    | succ n =>
      show (xs.set n b).get? n = some b
      exact ih n a b h

theorem list_get?_set_ne {α : Type} :
    ∀ (l : List α) (i j : Nat) (b : α), i ≠ j → (l.set i b).get? j = l.get? j := by
  intro l
  induction l with
  | nil => intro i j b _; cases i <;> rfl
  | cons x xs ih =>
    intro i j b hij
    cases i with
    | zero =>
      cases j with
      | zero => exact absurd rfl hij
      | succ m => rfl
    | succ n =>
      cases j with
      | zero => rfl
      | succ m =>
        show (xs.set n b).get? m = xs.get? m
        exact ih n m b (fun h => hij (by rw [h]))

theorem list_set_oob {α : Type} :
    ∀ (l : List α) (i : Nat) (a : α), l.length ≤ i → l.set i a = l := by
  intro l
  induction l with
  | nil => intro i a _; cases i <;> rfl
  | cons x xs ih =>
    intro i a h
    cases i with
    | zero => simp at h
    | succ n =>
      show x :: xs.set n a = x :: xs
      rw [ih n a (by simpa using h)]

theorem list_get?_oob {α : Type} :
    ∀ (l : List α) (i : Nat), l.length ≤ i → l.get? i = none := by
  intro l
  induction l with
  | nil => intro i _; cases i <;> rfl
  | cons x xs ih =>
    intro i h
    cases i with
    | zero => simp at h
    | succ n => exact ih n (by simpa using h)

theorem list_get?_replicate {α : Type} (a : α) :
    ∀ (n i : Nat), (List.replicate n a).get? i = if i < n then some a else none := by
  intro n
  induction n with
  | zero => intro i; cases i <;> rfl
  | succ m ih =>
    intro i
    cases i with
    | zero => simp [List.replicate]
    | succ k =>
      show (List.replicate m a).get? k = _
      rw [ih k]
      simp [Nat.succ_lt_succ_iff]

theorem grid_get?_set_self {α : Type} (g : Grid α) (idx : Idx) (a b : α)
    (h : g.get? idx = some a) : (g.set idx b).get? idx = some b := by
  cases g with
  | scalar c => cases idx <;> simp [Grid.get?] at h
  | one l =>
    cases idx with
    | i1 i => exact list_get?_set_self l i a b h
    | i2 i j => simp [Grid.get?] at h
  | two m =>
    cases idx with
    | i1 i => simp [Grid.get?] at h
    | i2 i j =>
      simp only [Grid.get?, Option.bind_eq_some] at h
      obtain ⟨row, hrow, hcell⟩ := h
      show ((m.set i (((m.get? i).getD []).set j b)).get? i).bind (fun r => r.get? j) = some b
      rw [hrow, Option.getD_some,
        list_get?_set_self m i row (row.set j b) hrow, Option.some_bind,
        list_get?_set_self row j a b hcell]

theorem grid_get?_set_ne {α : Type} (g : Grid α) (idx jdx : Idx) (b : α)
    (h : jdx ≠ idx) : (g.set idx b).get? jdx = g.get? jdx := by
  cases g with
  | scalar c => cases idx <;> rfl
  | one l =>
    cases idx with
    | i1 i =>
      cases jdx with
      | i1 j =>
        have hij : i ≠ j := fun he => h (by rw [he])
        exact list_get?_set_ne l i j b hij
      | i2 _ _ => rfl
    | i2 i j => rfl
  | two m =>
    cases idx with
    | i1 i => rfl
    | i2 i j =>
      cases jdx with
      | i1 k => rfl
      | i2 k l' =>
        show ((m.set i (((m.get? i).getD []).set j b)).get? k).bind (fun r => r.get? l') =
          (m.get? k).bind (fun r => r.get? l')
        by_cases hik : i = k
        · subst hik
          have hjl : j ≠ l' := fun he => h (by rw [he])
          cases hrow : m.get? i with
          | none =>
            have hlen : m.length ≤ i := by
              by_contra hlt
              push_neg at hlt
              rw [List.get?_eq_get hlt] at hrow
              exact Option.noConfusion hrow
            rw [list_set_oob m i _ hlen, hrow]
          | some row =>
            rw [Option.getD_some, list_get?_set_self m i row (row.set j b) hrow,
              Option.some_bind, Option.some_bind, list_get?_set_ne row j l' b hjl]
        · rw [list_get?_set_ne m i k _ hik]

/-! Claim theorems. -/

/-- Claim C5: the fallback-datastream branch of lines 86-88 is dead code. With the
primary identifier absent (the None object), str wraps it into the string
"None", which is not the None object, so the is-None test fails and the
alternate lookup path is never consulted; the session label becomes "None"
instead. This refutes the claim that the fallback branch is taken exactly when
the primary identifier is absent. -/
theorem resolveDatastream_fallback_dead :
    (∀ alt, resolveDatastream PyVal.pynone alt = (PyVal.pystr "None", false)) ∧
    (TimeSeriesDisplay.init { sampleArm with datastream := PyVal.pynone }).ds =
      PyVal.pystr "None" := by
  exact ⟨fun alt => rfl, rfl⟩

/-- Claim C7: for every 1-D grid shape with n at least 1, add_subplots installs a 1-D
array of exactly n fresh axes, addressable by integer indices 0 through n-1 and
by no larger index; the n = 1 case is normalized into a one-element array. -/
theorem add_subplots_one_dim (st : TimeSeriesDisplay) (n : Nat) (h : 1 ≤ n) :
    TimeSeriesDisplay.add_subplots st [n] =
      .ok () { st with fig := some 0, axes := some (Grid.one (List.replicate n Axis.fresh)) } ∧
    (List.replicate n Axis.fresh).length = n ∧
    (∀ i, i < n → Grid.get? (Grid.one (List.replicate n Axis.fresh)) (Idx.i1 i) =
      some Axis.fresh) ∧
    (∀ i, n ≤ i → Grid.get? (Grid.one (List.replicate n Axis.fresh)) (Idx.i1 i) = none) := by
  refine ⟨?_, List.length_replicate n Axis.fresh, ?_, ?_⟩
  · by_cases hn1 : n = 1
    · subst hn1
      by_cases hf : st.fig = none
      · simp [TimeSeriesDisplay.add_subplots, pltSubplots, hf]
      · simp [TimeSeriesDisplay.add_subplots, pltSubplots, hf]
    · by_cases hf : st.fig = none
      · simp [TimeSeriesDisplay.add_subplots, pltSubplots, hf, hn1]
      · simp [TimeSeriesDisplay.add_subplots, pltSubplots, hf, hn1]
  · intro i hi
    simp [Grid.get?, list_get?_replicate, hi]
  · intro i hi
    simp only [Grid.get?, list_get?_replicate]
    rw [if_neg (Nat.not_lt.mpr hi)]

/-- Witness for C7 at a concrete session and the singleton shape. -/
theorem add_subplots_one_dim_w :
    TimeSeriesDisplay.add_subplots sess0 [1] =
      Res.ok () { sess0 with fig := some 0,
                             axes := some (Grid.one (List.replicate 1 Axis.fresh)) } :=
  (add_subplots_one_dim sess0 1 (by decide)).1

/-- Claim C8: a shape whose length is neither 1 nor 2 makes add_subplots raise the
invalid-shape ValueError; the axes are untouched and no new figure is installed
(the held figure was already deleted by the attribute removal that precedes the
shape dispatch). -/
theorem add_subplots_bad_shape (st : TimeSeriesDisplay) (shape : List Nat)
    (h1 : shape.length ≠ 1) (h2 : shape.length ≠ 2) :
    TimeSeriesDisplay.add_subplots st shape =
      .err (.value "subplot_shape must be a 1 or 2 dimensional tuplelist, or array!")
        { st with fig := none } ∧
    ({ st with fig := none } : TimeSeriesDisplay).axes = st.axes := by
  refine ⟨?_, rfl⟩
  by_cases hf : st.fig = none
  · have hst : ({ st with fig := none } : TimeSeriesDisplay) = st := by
      cases st
      simp_all
    rw [hst]
    simp [TimeSeriesDisplay.add_subplots, hf, h1, h2]
  · simp [TimeSeriesDisplay.add_subplots, hf, h1, h2]

/-- Witness for C8 at a concrete session and the empty shape. -/
theorem add_subplots_bad_shape_w :
    TimeSeriesDisplay.add_subplots sess0 [] =
      Res.err (Err.value "subplot_shape must be a 1 or 2 dimensional tuplelist, or array!")
        { sess0 with fig := none } :=
  (add_subplots_bad_shape sess0 [] (by decide) (by decide)).1

/-- Claim C3: with no subplot grid yet, day_night_background, set_xrng, set_yrng and
add_colorbar each raise the not-yet-displayed RuntimeError and leave the session
unchanged. The day/night case assumes the date-span resolution that precedes
the guard in the source succeeds (the dataset records file dates or has a
nonempty time coordinate). -/
theorem guards_before_display (eph : EphFn) (st : TimeSeriesDisplay) (idx : Idx)
    (xr : Time × Time) (yr : Int × Int) (m : Nat) (t : Option String)
    (hax : st.axes = none) (hfd : (fileDatesFor st.arm).isSome = true) :
    TimeSeriesDisplay.day_night_background eph st idx =
      .err (.runtime "day_night_background requires the plot to be displayed.") st ∧
    TimeSeriesDisplay.set_xrng st xr idx =
      .err (.runtime "set_xrng requires the plot to be displayed.") st ∧
    TimeSeriesDisplay.set_yrng st yr idx =
      .err (.runtime "set_yrng requires the plot to be displayed.") st ∧
    TimeSeriesDisplay.add_colorbar st m t idx =
      .err (.runtime "add_colorbar requires the plot to be displayed.") st := by
  obtain ⟨fd, hfd'⟩ := Option.isSome_iff_exists.mp hfd
  refine ⟨?_, ?_, ?_, ?_⟩
  · simp [TimeSeriesDisplay.day_night_background, hfd', hax]
  · simp [TimeSeriesDisplay.set_xrng, hax]
  · simp [TimeSeriesDisplay.set_yrng, hax]
  · simp [TimeSeriesDisplay.add_colorbar, hax]

/-- Witness for C3 at a concrete fresh session. -/
theorem guards_before_display_w :
    TimeSeriesDisplay.set_xrng sess0 (0, 10) (Idx.i1 0) =
      Res.err (Err.runtime "set_xrng requires the plot to be displayed.") sess0 :=
  (guards_before_display eph0 sess0 (Idx.i1 0) (0, 10) (0, 0) 0 none rfl (by decide)).2.1

/-- Claim C10: when the not-yet-displayed guard of set_xrng, set_yrng or add_colorbar
fires, the session state is exactly what it was: no range store is allocated, no
range is recorded, no colorbar handle is appended. -/
theorem guards_leave_state (st : TimeSeriesDisplay) (idx : Idx) (xr : Time × Time)
    (yr : Int × Int) (m : Nat) (t : Option String) (hax : st.axes = none) :
    ((TimeSeriesDisplay.set_xrng st xr idx).isOk = false ∧
      (TimeSeriesDisplay.set_xrng st xr idx).stateOf = st ∧
      (TimeSeriesDisplay.set_xrng st xr idx).stateOf.xrng = st.xrng) ∧
    ((TimeSeriesDisplay.set_yrng st yr idx).isOk = false ∧
      (TimeSeriesDisplay.set_yrng st yr idx).stateOf = st ∧
      (TimeSeriesDisplay.set_yrng st yr idx).stateOf.yrng = st.yrng) ∧
    ((TimeSeriesDisplay.add_colorbar st m t idx).isOk = false ∧
      (TimeSeriesDisplay.add_colorbar st m t idx).stateOf = st ∧
      (TimeSeriesDisplay.add_colorbar st m t idx).stateOf.cbs = st.cbs) := by
  simp [TimeSeriesDisplay.set_xrng, TimeSeriesDisplay.set_yrng,
    TimeSeriesDisplay.add_colorbar, hax, Res.isOk, Res.stateOf]

/-- Witness for C10 at a concrete fresh session. -/
theorem guards_leave_state_w :
    (TimeSeriesDisplay.add_colorbar sess0 0 none (Idx.i1 0)).stateOf = sess0 :=
  (guards_leave_state sess0 (Idx.i1 0) (0, 0) (0, 0) 0 none rfl).2.2.2.1

/-- The day loop adds exactly one span and one line per enumerated day, and
changes nothing else on the axis. -/
theorem shadeDays_spec (eph : EphFn) (lat lon : Int) :
    ∀ (days : List Int) (a : Axis),
      (shadeDays eph lat lon days a).spans.length = a.spans.length + days.length ∧
      (shadeDays eph lat lon days a).vlines.length = a.vlines.length + days.length ∧
      (shadeDays eph lat lon days a).facecolor = a.facecolor ∧
      (shadeDays eph lat lon days a).xlim = a.xlim ∧
      (shadeDays eph lat lon days a).ylim = a.ylim ∧
      (shadeDays eph lat lon days a).fmt = a.fmt := by
  intro days
  induction days with
  | nil => intro a; simp [shadeDays]
  | cons d ds ih =>
    intro a
    have h := ih { a with
      spans := a.spans ++ [((eph d lat lon).sunrise, (eph d lat lon).sunset)],
      vlines := a.vlines ++ [(eph d lat lon).noon] }
    simp only [shadeDays, List.foldl_cons] at h ⊢
    simp only [List.length_append, List.length_cons, List.length_nil] at h
    obtain ⟨h1, h2, h3, h4, h5, h6⟩ := h
    refine ⟨?_, ?_, h3, h4, h5, h6⟩
    · rw [h1]; simp [List.length_cons]; omega
    · rw [h2]; simp [List.length_cons]; omega

/-- Inclusive day enumeration has span-plus-one elements. -/
theorem dates_between_length (d0 d1 : Int) (h : d0 ≤ d1) :
    (dates_between d0 d1).length = (d1 - d0).toNat + 1 := by
  simp only [dates_between, List.length_map, List.length_range]
  omega

/-- Claim C6: over a date span recorded by the dataset, day_night_background returns
successfully, grays the target axis background, and adds exactly one
sunrise-to-sunset band and one solar-noon line per enumerated calendar day of
the inclusive span; an inclusive span from d0 to d1 with d0 at most d1
enumerates d1 - d0 + 1 days, so a single-day span yields exactly one band and
one line and an N-day span exactly N of each. -/
theorem day_night_bands (eph : EphFn) (st : TimeSeriesDisplay) (idx : Idx)
    (axs : Axes) (a : Axis)
    (hax : st.axes = some axs) (hget : Grid.get? axs idx = some a)
    (hfd : st.arm.file_dates ≠ [])
    (hlat : st.arm.latVals ≠ []) (hlon : st.arm.lonVals ≠ []) :
    ∃ a', TimeSeriesDisplay.day_night_background eph st idx =
        .ok () { st with axes := some (Grid.set axs idx a') } ∧
      a'.facecolor = "0.85" ∧
      a'.spans.length = a.spans.length +
        (dates_between (st.arm.file_dates.headD 0) (st.arm.file_dates.getLastD 0)).length ∧
      a'.vlines.length = a.vlines.length +
        (dates_between (st.arm.file_dates.headD 0) (st.arm.file_dates.getLastD 0)).length ∧
      (∀ d0 d1 : Int, d0 ≤ d1 → (dates_between d0 d1).length = (d1 - d0).toNat + 1) := by
  have hfd' : fileDatesFor st.arm = some st.arm.file_dates := by
    unfold fileDatesFor
    rw [if_neg]
    simp [hfd]
  obtain ⟨lat, lats, hlat'⟩ := List.exists_cons_of_ne_nil hlat
  obtain ⟨lon, lons, hlon'⟩ := List.exists_cons_of_ne_nil hlon
  refine ⟨shadeDays eph lat lon
      (dates_between (st.arm.file_dates.headD 0) (st.arm.file_dates.getLastD 0))
      { a with facecolor := "0.85" }, ?_, ?_, ?_, ?_, ?_⟩
  · unfold TimeSeriesDisplay.day_night_background
    simp only [hfd', hax, hget, hlat', hlon', List.head?_cons]
  · exact (shadeDays_spec eph lat lon _ _).2.2.1
  · have h := (shadeDays_spec eph lat lon
      (dates_between (st.arm.file_dates.headD 0) (st.arm.file_dates.getLastD 0))
      { a with facecolor := "0.85" }).1
    simpa using h
  · have h := (shadeDays_spec eph lat lon
      (dates_between (st.arm.file_dates.headD 0) (st.arm.file_dates.getLastD 0))
      { a with facecolor := "0.85" }).2.1
    simpa using h
  · exact fun d0 d1 h => dates_between_length d0 d1 h

/-- Witness for C6 at the concrete one-cell session whose dataset covers one day. -/
theorem day_night_bands_w :
    (TimeSeriesDisplay.day_night_background eph0 sess1 (Idx.i1 0)).isOk = true := by
  obtain ⟨a', h1, _⟩ := day_night_bands eph0 sess1 (Idx.i1 0)
    (Grid.one [Axis.fresh]) Axis.fresh (by rfl) (by rfl)
    (by decide) (by decide) (by decide)
  rw [h1]
  rfl

/-- Claim C2 (the claim states the intent; the code slips): after an explicit
set_yrng on subplot 0 succeeds, plotting a 2-D field there does not reapply the
stored range; the sentinel test of line 340 applies the Python not to the
two-element boolean array produced by comparing the stored cell against
np.zeros(2), which raises the ambiguous-truth-value ValueError, so every plot
call made while the yrng attribute exists raises instead of setting any
y range. -/
theorem yrng_sentinel_check_raises :
    (TimeSeriesDisplay.set_yrng sess1 (0, 5) (Idx.i1 0)).isOk = true ∧
    sess2.yrng = some (Grid.one [(0, 5)]) ∧
    TimeSeriesDisplay.plot eph0 idNan sess2 "refl" (Idx.i1 0) none false =
      Res.err
        (Err.value "the truth value of an array with more than one element is ambiguous")
        (TimeSeriesDisplay.plot eph0 idNan sess2 "refl" (Idx.i1 0) none false).stateOf := by
  refine ⟨rfl, rfl, rfl⟩

/-- Claim C4 (counterexample): a plot call that returns successfully does not record
the plotted field; the session's plotted-variables list stays empty, so the
field is not contained in it. -/
theorem plot_vars_not_recorded :
    (TimeSeriesDisplay.plot eph0 idNan sess1 "temp" (Idx.i1 0) none false).isOk = true ∧
    (TimeSeriesDisplay.plot eph0 idNan sess1 "temp" (Idx.i1 0) none false).stateOf.plot_vars
      = [] ∧
    "temp" ∉
      (TimeSeriesDisplay.plot eph0 idNan sess1 "temp" (Idx.i1 0) none false).stateOf.plot_vars := by
  refine ⟨rfl, rfl, ?_⟩
  intro hmem
  simp only [show (TimeSeriesDisplay.plot eph0 idNan sess1 "temp" (Idx.i1 0) none
    false).stateOf.plot_vars = [] from rfl] at hmem
  exact List.not_mem_nil _ hmem

/-! Frame lemmas: which session fields each operation can touch. -/

/-- Two states with the same axes agree on every axis x limit. -/
theorem xlimAt_congr (s s' : TimeSeriesDisplay) (h : s'.axes = s.axes) (j : Idx) :
    xlimAt s' j = xlimAt s j := by
  unfold xlimAt
  rw [h]

/-- Two states with the same axes agree on every axis formatter. -/
theorem fmtAt_congr (s s' : TimeSeriesDisplay) (h : s'.axes = s.axes) (j : Idx) :
    fmtAt s' j = fmtAt s j := by
  unfold fmtAt
  rw [h]

/-- Two states with the same x store agree on every stored x cell. -/
theorem xcellAt_congr (s s' : TimeSeriesDisplay) (h : s'.xrng = s.xrng) (j : Idx) :
    xcellAt s' j = xcellAt s j := by
  unfold xcellAt
  rw [h]

/-- Replacing the axis at an index by one with the same x limits leaves every
axis x limit unchanged. -/
theorem xlimAt_update (st s : TimeSeriesDisplay) (axs : Axes) (a a' : Axis) (idx : Idx)
    (h1 : st.axes = some axs) (h2 : Grid.get? axs idx = some a)
    (h3 : s.axes = some (Grid.set axs idx a')) (h4 : a'.xlim = a.xlim) :
    ∀ j, xlimAt s j = xlimAt st j := by
  intro j
  unfold xlimAt
  rw [h1, h3]
  show (Grid.get? (Grid.set axs idx a') j).bind Axis.xlim = (Grid.get? axs j).bind Axis.xlim
  by_cases hj : j = idx
  · subst hj
    rw [grid_get?_set_self axs j a a' h2, h2, Option.some_bind, Option.some_bind, h4]
  · rw [grid_get?_set_ne axs idx j a' hj]

/-- Replacing the axis at an index by one with the same formatter leaves every
axis formatter unchanged. -/
theorem fmtAt_update (st s : TimeSeriesDisplay) (axs : Axes) (a a' : Axis) (idx : Idx)
    (h1 : st.axes = some axs) (h2 : Grid.get? axs idx = some a)
    (h3 : s.axes = some (Grid.set axs idx a')) (h4 : a'.fmt = a.fmt) :
    ∀ j, fmtAt s j = fmtAt st j := by
  intro j
  unfold fmtAt
  rw [h1, h3]
  show (Grid.get? (Grid.set axs idx a') j).bind Axis.fmt = (Grid.get? axs j).bind Axis.fmt
  by_cases hj : j = idx
  · subst hj
    rw [grid_get?_set_self axs j a a' h2, h2, Option.some_bind, Option.some_bind, h4]
  · rw [grid_get?_set_ne axs idx j a' hj]

/-- A singleton grid of fresh axes carries no x limits at any index. -/
theorem fresh_grid_xlim (j : Idx) :
    (Grid.get? (Grid.one [Axis.fresh]) j).bind Axis.xlim = none := by
  cases j with
  | i1 i =>
    cases i with
    | zero => rfl
    | succ n => cases n <;> rfl
  | i2 i k => rfl

/-- A singleton grid of fresh axes carries no formatter at any index. -/
theorem fresh_grid_fmt (j : Idx) :
    (Grid.get? (Grid.one [Axis.fresh]) j).bind Axis.fmt = none := by
  cases j with
  | i1 i =>
    cases i with
    | zero => rfl
    | succ n => cases n <;> rfl
  | i2 i k => rfl

/-- Lazy figure and axes creation changes no other session field. -/
theorem lazyInit_proj (st : TimeSeriesDisplay) :
    (lazyInit st).arm = st.arm ∧ (lazyInit st).time_rng = st.time_rng ∧
    (lazyInit st).xrng = st.xrng ∧ (lazyInit st).yrng = st.yrng ∧
    (lazyInit st).cbs = st.cbs ∧ (lazyInit st).plot_vars = st.plot_vars ∧
    (lazyInit st).ds = st.ds := by
  unfold lazyInit
  by_cases hf : st.fig = none <;> by_cases ha : st.axes = none <;> simp [hf, ha]

/-- Lazy creation leaves every axis x limit unchanged: the created singleton
axis is fresh and has no x limits. -/
theorem lazyInit_xlimAt (st : TimeSeriesDisplay) (j : Idx) :
    xlimAt (lazyInit st) j = xlimAt st j := by
  unfold lazyInit xlimAt
  by_cases hf : st.fig = none <;> by_cases ha : st.axes = none <;>
    simp [hf, ha, fresh_grid_xlim]

/-- Lazy creation leaves every axis formatter unchanged. -/
theorem lazyInit_fmtAt (st : TimeSeriesDisplay) (j : Idx) :
    fmtAt (lazyInit st) j = fmtAt st j := by
  unfold lazyInit fmtAt
  by_cases hf : st.fig = none <;> by_cases ha : st.axes = none <;>
    simp [hf, ha, fresh_grid_fmt]

/-! Plot-variable preservation: no operation of the class ever appends to the
session's plotted-variables list. -/

/-- day_night_background leaves plot_vars unchanged on every path. -/
theorem dnb_pv (eph : EphFn) (st : TimeSeriesDisplay) (idx : Idx) :
    ((TimeSeriesDisplay.day_night_background eph st idx).stateOf).plot_vars =
      st.plot_vars := by
  unfold TimeSeriesDisplay.day_night_background
  (repeat' split) <;> simp [Res.stateOf]

/-- set_xrng leaves plot_vars unchanged on every path. -/
theorem set_xrng_pv (st : TimeSeriesDisplay) (xr : Time × Time) (idx : Idx) :
    ((TimeSeriesDisplay.set_xrng st xr idx).stateOf).plot_vars = st.plot_vars := by
  unfold TimeSeriesDisplay.set_xrng
  (repeat' split) <;> simp [Res.stateOf]

/-- set_yrng leaves plot_vars unchanged on every path. -/
theorem set_yrng_pv (st : TimeSeriesDisplay) (yr : Int × Int) (idx : Idx) :
    ((TimeSeriesDisplay.set_yrng st yr idx).stateOf).plot_vars = st.plot_vars := by
  unfold TimeSeriesDisplay.set_yrng
  (repeat' split) <;> simp [Res.stateOf]

/-- add_colorbar leaves plot_vars unchanged on every path. -/
theorem add_colorbar_pv (st : TimeSeriesDisplay) (m : Nat) (t : Option String)
    (idx : Idx) :
    ((TimeSeriesDisplay.add_colorbar st m t idx).stateOf).plot_vars = st.plot_vars := by
  unfold TimeSeriesDisplay.add_colorbar
  (repeat' split) <;> simp [Res.stateOf]

/-- The drawing step of plot leaves plot_vars unchanged on every path. -/
theorem plotDraw_pv (eph : EphFn) (ani : List Time × List Int → List Time × List Int)
    (pd : PlotData) (an : Bool) (idx : Idx) (st : TimeSeriesDisplay) :
    ((plotDraw eph ani pd an idx st).stateOf).plot_vars = st.plot_vars := by
  unfold plotDraw
  have hd := dnb_pv eph st idx
  (repeat' split) <;> simp_all [Res.stateOf]

/-- The title step of plot leaves plot_vars unchanged on every path. -/
theorem plotTitle_pv (pd : PlotData) (field : String) (ti : Option String)
    (st : TimeSeriesDisplay) (idx : Idx) :
    ((plotTitle pd field ti st idx).stateOf).plot_vars = st.plot_vars := by
  unfold plotTitle
  (repeat' split) <;> simp [Res.stateOf]

/-- The x-range step of plot leaves plot_vars unchanged on every path. -/
theorem plotXrange_pv (pd : PlotData) (st : TimeSeriesDisplay) (idx : Idx) :
    ((plotXrange pd st idx).stateOf).plot_vars = st.plot_vars := by
  unfold plotXrange
  split
  · simp [Res.stateOf]
  · rename_i trs htr
    rw [set_xrng_pv trs.2 trs.1 idx]
    split at htr
    · rename_i tr htr0
      injection htr with htr1
      rw [← htr1]
    · split at htr
      · rename_i mn mx hmn hmx
        injection htr with htr1
        rw [← htr1]
      · simp at htr

/-- The y-range step of plot leaves plot_vars unchanged on every path. -/
theorem plotYlim_pv (pd : PlotData) (st : TimeSeriesDisplay) (idx : Idx) :
    ((plotYlim pd st idx).stateOf).plot_vars = st.plot_vars := by
  unfold plotYlim
  (repeat' split) <;>
    first
      | exact set_yrng_pv _ _ _
      | simp [Res.stateOf]

/-- The tick-format step of plot leaves plot_vars unchanged on every path. -/
theorem plotFmt_pv (st : TimeSeriesDisplay) (idx : Idx) :
    ((plotFmt st idx).stateOf).plot_vars = st.plot_vars := by
  unfold plotFmt
  (repeat' split) <;> simp [Res.stateOf]

/-- The colorbar step of plot leaves plot_vars unchanged on every path. -/
theorem plotCbar_pv (pd : PlotData) (mesh : Option Nat) (st : TimeSeriesDisplay)
    (idx : Idx) :
    ((plotCbar pd mesh st idx).stateOf).plot_vars = st.plot_vars := by
  unfold plotCbar
  split
  · rfl
  · split
    · simp [Res.stateOf]
    · rename_i mid
      split
      · rename_i e s hcb
        have h := add_colorbar_pv st mid (some pd.units) idx
        rw [hcb] at h
        simpa [Res.stateOf] using h
      · rename_i r s hcb
        have h := add_colorbar_pv st mid (some pd.units) idx
        rw [hcb] at h
        simpa [Res.stateOf] using h

/-! Success characterizations of the phases of plot. -/

/-- What a successful set_xrng call guarantees: the raw range is on the target
axis, the day-truncated range is in the store at the target cell, every other
axis x limit is unchanged, no formatter moves, and no unrelated session field
moves. -/
theorem set_xrng_ok (st : TimeSeriesDisplay) (xr : Time × Time) (idx : Idx)
    (u : Unit) (s : TimeSeriesDisplay)
    (h : TimeSeriesDisplay.set_xrng st xr idx = .ok u s) :
    s.time_rng = st.time_rng ∧ s.yrng = st.yrng ∧ s.arm = st.arm ∧ s.cbs = st.cbs ∧
    s.fig = st.fig ∧ s.ds = st.ds ∧
    xlimAt s idx = some xr ∧
    xcellAt s idx = some (toDay xr.1, toDay xr.2) ∧
    (∀ j, j ≠ idx → xlimAt s j = xlimAt st j) ∧
    (∀ j, fmtAt s j = fmtAt st j) ∧
    s.axes ≠ none := by
  unfold TimeSeriesDisplay.set_xrng at h
  split at h
  · simp at h
  rename_i axs hax
  split at h
  · simp at h
  rename_i xs hxs
  split at h
  · simp at h
  rename_i a hga
  split at h
  · simp at h
  rename_i c hgc
  injection h with h1 h2
  subst h2
  refine ⟨rfl, rfl, rfl, rfl, rfl, rfl, ?_, ?_, ?_, ?_, by simp⟩
  · unfold xlimAt
    show (Grid.get? (Grid.set axs idx { a with xlim := some xr }) idx).bind Axis.xlim =
      some xr
    rw [grid_get?_set_self axs idx a { a with xlim := some xr } hga, Option.some_bind]
  · unfold xcellAt
    show Grid.get? (Grid.set xs idx (toDay xr.1, toDay xr.2)) idx = some _
    rw [grid_get?_set_self xs idx c (toDay xr.1, toDay xr.2) hgc]
  · intro j hj
    unfold xlimAt
    rw [hax]
    show (Grid.get? (Grid.set axs idx { a with xlim := some xr }) j).bind Axis.xlim =
      (Grid.get? axs j).bind Axis.xlim
    rw [grid_get?_set_ne axs idx j { a with xlim := some xr } hj]
  · exact fmtAt_update st _ axs a { a with xlim := some xr } idx hax hga rfl rfl

/-- What a successful day_night_background call guarantees: only the target
axis changes, and its x limits and formatter survive. -/
theorem dnb_ok (eph : EphFn) (st : TimeSeriesDisplay) (idx : Idx) (u : Unit)
    (s : TimeSeriesDisplay)
    (h : TimeSeriesDisplay.day_night_background eph st idx = .ok u s) :
    (∀ j, xlimAt s j = xlimAt st j) ∧ (∀ j, fmtAt s j = fmtAt st j) ∧
    s.time_rng = st.time_rng ∧ s.xrng = st.xrng ∧ s.yrng = st.yrng ∧
    s.arm = st.arm ∧ s.cbs = st.cbs ∧ s.fig = st.fig ∧ s.ds = st.ds := by
  unfold TimeSeriesDisplay.day_night_background at h
  split at h
  · simp at h
  rename_i fd hfd
  split at h
  · simp at h
  rename_i axs hax
  split at h
  · simp at h
  rename_i a hga
  split at h
  · rename_i lat lon hlat hlon
    injection h with h1 h2
    subst h2
    have hsh := shadeDays_spec eph lat lon
      (dates_between (fd.headD 0) (fd.getLastD 0)) { a with facecolor := "0.85" }
    refine ⟨?_, ?_, rfl, rfl, rfl, rfl, rfl, rfl, rfl⟩
    · exact xlimAt_update st _ axs a _ idx hax hga rfl hsh.2.2.2.1
    · exact fmtAt_update st _ axs a _ idx hax hga rfl hsh.2.2.2.2.2
  · simp at h

/-- What a successful drawing phase guarantees: only the target axis changes,
and its x limits and formatter survive. -/
theorem plotDraw_ok (eph : EphFn) (ani : List Time × List Int → List Time × List Int)
    (pd : PlotData) (an : Bool) (idx : Idx) (st : TimeSeriesDisplay)
    (mesh : Option Nat) (s : TimeSeriesDisplay)
    (h : plotDraw eph ani pd an idx st = .ok mesh s) :
    (∀ j, xlimAt s j = xlimAt st j) ∧ (∀ j, fmtAt s j = fmtAt st j) ∧
    s.time_rng = st.time_rng ∧ s.xrng = st.xrng ∧ s.yrng = st.yrng ∧
    s.arm = st.arm ∧ s.cbs = st.cbs ∧ s.fig = st.fig ∧ s.ds = st.ds := by
  unfold plotDraw at h
  split at h
  · split at h
    · simp at h
    rename_i u s0 hdnb
    obtain ⟨hx, hf, ht, hxr, hyr, har, hcb, hfg, hds⟩ := dnb_ok eph st idx u s0 hdnb
    split at h
    · simp at h
    rename_i axs0 hax0
    split at h
    · simp at h
    rename_i a0 hga0
    injection h with h1 h2
    subst h2
    refine ⟨?_, ?_, ht, hxr, hyr, har, hcb, hfg, hds⟩
    · intro j
      exact (xlimAt_update s0 _ axs0 a0 { a0 with nmarkers := a0.nmarkers + 1 } idx
        hax0 hga0 rfl rfl j).trans (hx j)
    · intro j
      exact (fmtAt_update s0 _ axs0 a0 { a0 with nmarkers := a0.nmarkers + 1 } idx
        hax0 hga0 rfl rfl j).trans (hf j)
  · split at h
    · simp at h
    rename_i axs hax
    split at h
    · simp at h
    rename_i a hga
    injection h with h1 h2
    subst h2
    refine ⟨?_, ?_, rfl, rfl, rfl, rfl, rfl, rfl, rfl⟩
    · exact xlimAt_update st _ axs a { a with nmeshes := a.nmeshes + 1 } idx hax hga rfl rfl
    · exact fmtAt_update st _ axs a { a with nmeshes := a.nmeshes + 1 } idx hax hga rfl rfl

/-- What a successful title phase guarantees: only the target axis title and
y label change. -/
theorem plotTitle_ok (pd : PlotData) (field : String) (ti : Option String)
    (st : TimeSeriesDisplay) (idx : Idx) (u : Unit) (s : TimeSeriesDisplay)
    (h : plotTitle pd field ti st idx = .ok u s) :
    (∀ j, xlimAt s j = xlimAt st j) ∧ (∀ j, fmtAt s j = fmtAt st j) ∧
    s.time_rng = st.time_rng ∧ s.xrng = st.xrng ∧ s.yrng = st.yrng ∧
    s.arm = st.arm ∧ s.cbs = st.cbs ∧ s.ds = st.ds := by
  unfold plotTitle at h
  split at h
  · simp at h
  rename_i t htt
  split at h
  · simp at h
  rename_i axs hax
  split at h
  · simp at h
  rename_i a hga
  injection h with h1 h2
  subst h2
  refine ⟨?_, ?_, rfl, rfl, rfl, rfl, rfl, rfl⟩
  · exact xlimAt_update st _ axs a { a with title := t, ylabel := pd.ytitle } idx
      hax hga rfl rfl
  · exact fmtAt_update st _ axs a { a with title := t, ylabel := pd.ytitle } idx
      hax hga rfl rfl

/-- What a successful colorbar attachment guarantees: only the handle list
grows. -/
theorem add_colorbar_ok (st : TimeSeriesDisplay) (m : Nat) (t : Option String)
    (idx : Idx) (r : Nat) (s : TimeSeriesDisplay)
    (h : TimeSeriesDisplay.add_colorbar st m t idx = .ok r s) :
    s.axes = st.axes ∧ s.time_rng = st.time_rng ∧ s.xrng = st.xrng ∧
    s.yrng = st.yrng ∧ s.arm = st.arm ∧ s.ds = st.ds ∧
    s.cbs = st.cbs ++ [st.cbs.length] := by
  unfold TimeSeriesDisplay.add_colorbar at h
  split at h
  · simp at h
  rename_i axs hax
  split at h
  · simp at h
  rename_i a hga
  split at h
  · simp at h
  rename_i fg hfg
  injection h with h1 h2
  subst h2
  exact ⟨rfl, rfl, rfl, rfl, rfl, rfl, rfl⟩

/-- What a successful x-range phase guarantees: the session time range is some
tr, pinned to the previous time range when one existed and to the field's own
extent when none did; the target axis x limit and stored cell reflect tr; other
axes and all formatters are unchanged. -/
theorem plotXrange_ok (pd : PlotData) (st : TimeSeriesDisplay) (idx : Idx)
    (u : Unit) (s : TimeSeriesDisplay) (h : plotXrange pd st idx = .ok u s) :
    ∃ tr, s.time_rng = some tr ∧
      (st.time_rng = none →
        listMin pd.xvar.vals = some tr.1 ∧ listMax pd.xvar.vals = some tr.2) ∧
      (∀ t0, st.time_rng = some t0 → tr = t0) ∧
      xlimAt s idx = some tr ∧
      xcellAt s idx = some (toDay tr.1, toDay tr.2) ∧
      (∀ j, j ≠ idx → xlimAt s j = xlimAt st j) ∧
      (∀ j, fmtAt s j = fmtAt st j) ∧
      s.yrng = st.yrng ∧ s.arm = st.arm ∧ s.cbs = st.cbs ∧ s.ds = st.ds ∧
      s.axes ≠ none := by
  unfold plotXrange at h
  split at h
  · simp at h
  rename_i trs htr
  obtain ⟨hT, hY, hA, hC, hF, hD, hXl, hXc, hFr, hFm, hNe⟩ :=
    set_xrng_ok trs.2 trs.1 idx u s h
  have key : trs.2.time_rng = some trs.1 ∧
      (st.time_rng = none →
        listMin pd.xvar.vals = some trs.1.1 ∧ listMax pd.xvar.vals = some trs.1.2) ∧
      (∀ t0, st.time_rng = some t0 → trs.1 = t0) ∧
      trs.2.axes = st.axes ∧ trs.2.yrng = st.yrng ∧ trs.2.arm = st.arm ∧
      trs.2.cbs = st.cbs ∧ trs.2.ds = st.ds := by
    split at htr
    · rename_i t0 htrng
      injection htr with he
      rw [← he]
      refine ⟨htrng, ?_, ?_, rfl, rfl, rfl, rfl, rfl⟩
      · intro hc
        rw [htrng] at hc
        exact absurd hc (by simp)
      · intro t1 h1
        rw [htrng] at h1
        injection h1 with h2
    · split at htr
      · rename_i mn mx hmn hmx
        injection htr with he
        rw [← he]
        refine ⟨rfl, fun _ => ⟨hmn, hmx⟩, ?_, rfl, rfl, rfl, rfl, rfl⟩
        intro t1 h1
        simp_all
      · simp at htr
  refine ⟨trs.1, ?_, key.2.1, key.2.2.1, hXl, hXc, ?_, ?_, ?_, ?_, ?_, ?_, hNe⟩
  · rw [hT, key.1]
  · intro j hj
    rw [hFr j hj]
    exact xlimAt_congr st trs.2 key.2.2.2.1 j
  · intro j
    rw [hFm j]
    exact fmtAt_congr st trs.2 key.2.2.2.1 j
  · rw [hY, key.2.2.2.2.1]
  · rw [hA, key.2.2.2.2.2.1]
  · rw [hC, key.2.2.2.2.2.2.1]
  · rw [hD, key.2.2.2.2.2.2.2]

/-- A successful y-limit phase happens exactly when the yrng attribute does not
exist yet, and it changes nothing; every other path either raises the
ambiguous-truth-value ValueError or an earlier lookup error. -/
theorem plotYlim_ok (pd : PlotData) (st : TimeSeriesDisplay) (idx : Idx)
    (u : Unit) (s : TimeSeriesDisplay) (h : plotYlim pd st idx = .ok u s) :
    st.yrng = none ∧ s = st := by
  unfold plotYlim at h
  split at h
  · rename_i hy
    injection h with h1 h2
    exact ⟨hy, h2.symm⟩
  rename_i ys hy
  split at h
  · simp at h
  rename_i cell hcell
  split at h
  · simp at h
  rename_i b hb
  simp [npTruth] at hb

/-- What a successful tick-format phase guarantees: the target formatter is
keyed on the difference of the stored day-truncated bounds, x limits are
untouched everywhere, and every other session field is unchanged. -/
theorem plotFmt_ok (st : TimeSeriesDisplay) (idx : Idx) (u : Unit)
    (s : TimeSeriesDisplay) (h : plotFmt st idx = .ok u s) :
    ∃ c, xcellAt st idx = some c ∧
      fmtAt s idx = some (get_date_format (c.2 - c.1)) ∧
      (∀ j, xlimAt s j = xlimAt st j) ∧
      (∀ j, j ≠ idx → fmtAt s j = fmtAt st j) ∧
      s.time_rng = st.time_rng ∧ s.xrng = st.xrng ∧ s.yrng = st.yrng ∧
      s.arm = st.arm ∧ s.cbs = st.cbs ∧ s.ds = st.ds := by
  unfold plotFmt at h
  split at h
  · simp at h
  rename_i xs hxs
  split at h
  · simp at h
  rename_i c hgc
  split at h
  · simp at h
  rename_i axs hax
  split at h
  · simp at h
  rename_i a hga
  injection h with h1 h2
  subst h2
  refine ⟨c, ?_, ?_, ?_, ?_, rfl, rfl, rfl, rfl, rfl, rfl⟩
  · unfold xcellAt
    rw [hxs]
    simpa using hgc
  · unfold fmtAt
    show (Grid.get? (Grid.set axs idx
      { a with fmt := some (get_date_format (c.2 - c.1)) }) idx).bind Axis.fmt = _
    rw [grid_get?_set_self axs idx a _ hga, Option.some_bind]
  · exact xlimAt_update st _ axs a
      { a with fmt := some (get_date_format (c.2 - c.1)) } idx hax hga rfl rfl
  · intro j hj
    unfold fmtAt
    rw [hax]
    show (Grid.get? (Grid.set axs idx
      { a with fmt := some (get_date_format (c.2 - c.1)) }) j).bind Axis.fmt =
      (Grid.get? axs j).bind Axis.fmt
    rw [grid_get?_set_ne axs idx j _ hj]

/-- What a successful colorbar phase guarantees: the axes and the range state
are untouched. -/
theorem plotCbar_ok (pd : PlotData) (mesh : Option Nat) (st : TimeSeriesDisplay)
    (idx : Idx) (u : Unit) (s : TimeSeriesDisplay)
    (h : plotCbar pd mesh st idx = .ok u s) :
    s.axes = st.axes ∧ s.time_rng = st.time_rng ∧ s.xrng = st.xrng ∧
    s.yrng = st.yrng ∧ s.arm = st.arm ∧ s.ds = st.ds := by
  unfold plotCbar at h
  split at h
  · injection h with h1 h2
    subst h2
    exact ⟨rfl, rfl, rfl, rfl, rfl, rfl⟩
  · split at h
    · simp at h
    rename_i mid
    split at h
    · simp at h
    rename_i r s0 hcb
    injection h with h1 h2
    subst h2
    obtain ⟨hA, hT, hX, hY, hAr, hD, _⟩ :=
      add_colorbar_ok st mid (some pd.units) idx r s0 hcb
    exact ⟨hA, hT, hX, hY, hAr, hD⟩

/-- What a successful plot call guarantees about the session time range and the
target subplot: the time range is some tr afterwards, computed from the field's
own full time extent when the session had none and unchanged otherwise; the
target axis x limit is exactly tr; the stored cell is the day-truncated tr; the
installed formatter is keyed on the difference of the day-truncated bounds; and
every other subplot's x limit is untouched. -/
theorem plot_ok_spec (eph : EphFn) (ani : List Time × List Int → List Time × List Int)
    (st : TimeSeriesDisplay) (field : String) (idx : Idx) (ti : Option String)
    (an : Bool) (st' : TimeSeriesDisplay)
    (h : TimeSeriesDisplay.plot eph ani st field idx ti an = .ok () st') :
    ∃ tr, st'.time_rng = some tr ∧
      (st.time_rng = none → xextent st.arm field = some tr) ∧
      (∀ t0, st.time_rng = some t0 → tr = t0) ∧
      xlimAt st' idx = some tr ∧
      xcellAt st' idx = some (toDay tr.1, toDay tr.2) ∧
      fmtAt st' idx = some (get_date_format (toDay tr.2 - toDay tr.1)) ∧
      (∀ j, j ≠ idx → xlimAt st' j = xlimAt st j) ∧
      st'.arm = st.arm := by
  unfold TimeSeriesDisplay.plot at h
  split at h
  · simp at h
  rename_i pd hpl
  split at h
  · simp at h
  rename_i axs hax
  split at h
  · simp at h
  rename_i a0 hga
  split at h
  · simp at h
  rename_i mesh s3 hdr
  split at h
  · simp at h
  rename_i u4 s4 htl
  split at h
  · simp at h
  rename_i u5 s5 hxr
  split at h
  · simp at h
  rename_i u6 s6 hyl
  split at h
  · simp at h
  rename_i u7 s7 hfm
  obtain ⟨hD_xl, hD_fm, hD_t, hD_x, hD_y, hD_a, hD_c, hD_f, hD_d⟩ :=
    plotDraw_ok eph ani pd an idx (lazyInit st) mesh s3 hdr
  obtain ⟨hT_xl, hT_fm, hT_t, hT_x, hT_y, hT_a, hT_c, hT_d⟩ :=
    plotTitle_ok pd field ti s3 idx u4 s4 htl
  obtain ⟨tr, hX_t, hX_cond, hX_pin, hX_xl, hX_xc, hX_fr, hX_fm, hX_y, hX_a, hX_c,
    hX_d, hX_ne⟩ := plotXrange_ok pd s4 idx u5 s5 hxr
  obtain ⟨hY_n, hY_eq⟩ := plotYlim_ok pd s5 idx u6 s6 hyl
  rw [hY_eq] at hfm
  obtain ⟨c, hF_xc, hF_fm, hF_xl, hF_fr, hF_t, hF_x, hF_y, hF_a, hF_c, hF_d⟩ :=
    plotFmt_ok s5 idx u7 s7 hfm
  obtain ⟨hC_ax, hC_t, hC_x, hC_y, hC_a, hC_d⟩ := plotCbar_ok pd mesh s7 idx () st' h
  obtain ⟨hL_a, hL_t, hL_x, hL_y, hL_c, hL_p, hL_d⟩ := lazyInit_proj st
  have hc : c = (toDay tr.1, toDay tr.2) := by
    rw [hF_xc] at hX_xc
    injection hX_xc with hc0
  refine ⟨tr, ?_, ?_, ?_, ?_, ?_, ?_, ?_, ?_⟩
  · rw [hC_t, hF_t, hX_t]
  · intro h0
    have h4 : s4.time_rng = none := by rw [hT_t, hD_t, hL_t, h0]
    obtain ⟨hmn, hmx⟩ := hX_cond h4
    simp only [xextent, hpl, hmn, hmx]
  · intro t0 h0
    apply hX_pin
    rw [hT_t, hD_t, hL_t, h0]
  · rw [xlimAt_congr s7 st' hC_ax idx, hF_xl idx, hX_xl]
  · rw [xcellAt_congr s7 st' hC_x idx, xcellAt_congr s5 s7 hF_x idx, hX_xc]
  · rw [fmtAt_congr s7 st' hC_ax idx, hF_fm, hc]
  · intro j hj
    rw [xlimAt_congr s7 st' hC_ax j, hF_xl j, hX_fr j hj, hT_xl j, hD_xl j,
      lazyInit_xlimAt st j]
  · rw [hC_a, hF_a, hX_a, hT_a, hD_a, hL_a]

/-- Claim C4 (amended): the session initializes a plotted-variables list but no code
path of plot ever appends to it; after any plot call, successful or raising,
the list is exactly what it was before, so the plotted field is never recorded
in it. -/
theorem plot_preserves_plot_vars (eph : EphFn)
    (ani : List Time × List Int → List Time × List Int) (st : TimeSeriesDisplay)
    (field : String) (idx : Idx) (ti : Option String) (an : Bool) :
    ((TimeSeriesDisplay.plot eph ani st field idx ti an).stateOf).plot_vars =
      st.plot_vars := by
  unfold TimeSeriesDisplay.plot
  have hL := (lazyInit_proj st).2.2.2.2.2.1
  split
  · simp [Res.stateOf]
  rename_i pd hpl
  split
  · simpa [Res.stateOf] using hL
  rename_i axs hax
  split
  · simpa [Res.stateOf] using hL
  rename_i a0 hga
  split
  · rename_i e s hdr
    have h := plotDraw_pv eph ani pd an idx (lazyInit st)
    rw [hdr] at h
    simp [Res.stateOf] at h
    simp [Res.stateOf]
    rw [h, hL]
  rename_i mesh s3 hdr
  have h3 := plotDraw_pv eph ani pd an idx (lazyInit st)
  rw [hdr] at h3
  simp [Res.stateOf] at h3
  split
  · rename_i e s htl
    have h := plotTitle_pv pd field ti s3 idx
    rw [htl] at h
    simp [Res.stateOf] at h
    simp [Res.stateOf]
    rw [h, h3, hL]
  rename_i u4 s4 htl
  have h4 := plotTitle_pv pd field ti s3 idx
  rw [htl] at h4
  simp [Res.stateOf] at h4
  split
  · rename_i e s hxr
    have h := plotXrange_pv pd s4 idx
    rw [hxr] at h
    simp [Res.stateOf] at h
    simp [Res.stateOf]
    rw [h, h4, h3, hL]
  rename_i u5 s5 hxr
  have h5 := plotXrange_pv pd s4 idx
  rw [hxr] at h5
  simp [Res.stateOf] at h5
  split
  · rename_i e s hyl
    have h := plotYlim_pv pd s5 idx
    rw [hyl] at h
    simp [Res.stateOf] at h
    simp [Res.stateOf]
    rw [h, h5, h4, h3, hL]
  rename_i u6 s6 hyl
  have h6 := plotYlim_pv pd s5 idx
  rw [hyl] at h6
  simp [Res.stateOf] at h6
  split
  · rename_i e s hfm
    have h := plotFmt_pv s6 idx
    rw [hfm] at h
    simp [Res.stateOf] at h
    simp [Res.stateOf]
    rw [h, h6, h5, h4, h3, hL]
  rename_i u7 s7 hfm
  have h7 := plotFmt_pv s6 idx
  rw [hfm] at h7
  simp [Res.stateOf] at h7
  rw [plotCbar_pv pd mesh s7 idx, h7, h6, h5, h4, h3, hL]

/-- Claim C1: the session-wide time range is computed once, from the full time extent
of the first field plotted, and every subsequent successful plot call applies
that same range as its subplot's x limits; after plotting field A and then
field B on different subplots, both subplots' x ranges equal A's full time
extent. -/
theorem plot_shared_xrange (eph : EphFn)
    (ani : List Time × List Int → List Time × List Int)
    (st st₁ st₂ : TimeSeriesDisplay) (fa fb : String) (ia ib : Idx)
    (ta tb : Option String) (na nb : Bool)
    (h0 : st.time_rng = none) (hne : ia ≠ ib)
    (hA : TimeSeriesDisplay.plot eph ani st fa ia ta na = .ok () st₁)
    (hB : TimeSeriesDisplay.plot eph ani st₁ fb ib tb nb = .ok () st₂) :
    ∃ tr, xextent st.arm fa = some tr ∧
      st₁.time_rng = some tr ∧ st₂.time_rng = some tr ∧
      xlimAt st₂ ia = some tr ∧ xlimAt st₂ ib = some tr := by
  obtain ⟨tr, hA_t, hA_x0, hA_pin, hA_xl, hA_xc, hA_fm, hA_fr, hA_arm⟩ :=
    plot_ok_spec eph ani st fa ia ta na st₁ hA
  obtain ⟨tr', hB_t, hB_x0, hB_pin, hB_xl, hB_xc, hB_fm, hB_fr, hB_arm⟩ :=
    plot_ok_spec eph ani st₁ fb ib tb nb st₂ hB
  have htr : tr' = tr := hB_pin tr hA_t
  refine ⟨tr, hA_x0 h0, hA_t, ?_, ?_, ?_⟩
  · rw [hB_t, htr]
  · rw [hB_fr ia hne, hA_xl]
  · rw [hB_xl, htr]

/-- Witness for C1: on the concrete two-cell session, plotting the 1-D field on
subplot 0 and then the 2-D field on subplot 1 leaves both subplots' x limits at
the first field's full time extent. -/
theorem plot_shared_xrange_w :
    xlimAt sessB2 (Idx.i1 0) = some ((0 : Int), (2900 : Int)) ∧
    xlimAt sessB2 (Idx.i1 1) = some ((0 : Int), (2900 : Int)) := by
  obtain ⟨tr, h1, h2, h3, h4, h5⟩ := plot_shared_xrange eph0 idNan sessB sessB1 sessB2
    "temp" "refl" (Idx.i1 0) (Idx.i1 1) none none false false rfl (by decide) rfl rfl
  have htr : tr = ((0 : Int), (2900 : Int)) := by
    have hx : xextent sessB.arm "temp" = some ((0 : Int), (2900 : Int)) := by decide
    rw [h1] at hx
    injection hx with hx0
  rw [htr] at h4 h5
  exact ⟨h4, h5⟩

/-- Claim C9: a successful set_xrng records the requested range coerced to whole-day
precision (floor to datetime64 day units), a successful plot keys its tick
formatter on the difference of those day-truncated stored bounds, and two
endpoints within the same calendar day give a stored span of zero days. -/
theorem xrng_day_truncation :
    (∀ (st : TimeSeriesDisplay) (xr : Time × Time) (idx : Idx) (u : Unit)
        (s : TimeSeriesDisplay), TimeSeriesDisplay.set_xrng st xr idx = .ok u s →
        xcellAt s idx = some (toDay xr.1, toDay xr.2)) ∧
    (∀ (eph : EphFn) (ani : List Time × List Int → List Time × List Int)
        (st : TimeSeriesDisplay) (field : String) (idx : Idx) (ti : Option String)
        (an : Bool) (st' : TimeSeriesDisplay),
        TimeSeriesDisplay.plot eph ani st field idx ti an = .ok () st' →
        ∃ c, xcellAt st' idx = some c ∧
          fmtAt st' idx = some (get_date_format (c.2 - c.1))) ∧
    (∀ a b : Time, toDay a = toDay b → toDay b - toDay a = 0) := by
  refine ⟨?_, ?_, ?_⟩
  · intro st xr idx u s h
    exact (set_xrng_ok st xr idx u s h).2.2.2.2.2.2.2.1
  · intro eph ani st field idx ti an st' h
    obtain ⟨tr, _, _, _, _, hxc, hfm, _, _⟩ :=
      plot_ok_spec eph ani st field idx ti an st' h
    exact ⟨(toDay tr.1, toDay tr.2), hxc, hfm⟩
  · intro a b h
    rw [← h]
    exact sub_self _

/-- Witness for C9: a concrete set_xrng whose endpoints fall at minute 100 of
day 0 and minute 120 of day 2 stores the day-truncated cell (0, 2). -/
theorem xrng_day_truncation_w :
    xcellAt sessX (Idx.i1 0) = some (0, 2) := by
  have h : TimeSeriesDisplay.set_xrng sess1 (100, 3000) (Idx.i1 0) = Res.ok () sessX :=
    rfl
  have hx := xrng_day_truncation.1 sess1 (100, 3000) (Idx.i1 0) () sessX h
  have heq : (some (toDay (100 : Int), toDay (3000 : Int)) : Option (Int × Int)) =
      some ((0 : Int), (2 : Int)) := by decide
  rw [← heq]
  exact hx

end ACT
